import Mathlib

/-!
Verification of the pixel-to-geographic coordinate frame solver of
`mioty_heat_mapper` (`src/mioty_heat_mapper/wgs84.py`).

The Python module is embedded shallowly over the real numbers: the float
arithmetic of the source becomes exact real arithmetic, `math.atan2` /
`math.cos` / `math.sin` become their real counterparts, and the
exception-raising constructor `World.__init__` becomes an `Except`-valued
function whose error constructors mirror the exception messages of the
source (one extra constructor, `divisionByZero`, models Python's
`ZeroDivisionError`, which is not part of the spec's error taxonomy).
-/

namespace Wgs84

open Real

/-- Tolerance constant of `almost_eq` (wgs84.py line 174). -/
noncomputable def tol : ℝ := 1e-6

/-- Embedding of `almost_eq` (wgs84.py lines 170-175):
`abs(f1 - f2) < max(tol, tol * max(abs(f1), abs(f2)))`. -/
noncomputable def almost_eq (f1 f2 : ℝ) : Prop :=
  |f1 - f2| < max tol (tol * max |f1| |f2|)

/-- Embedding of class `Coord` (wgs84.py lines 6-58): a latitude/longitude
pair. -/
structure Coord where
  lat : ℝ
  lon : ℝ

attribute [ext] Coord

/-- Embedding of `Coord.__add__`. -/
noncomputable def Coord.add (a b : Coord) : Coord :=
  ⟨a.lat + b.lat, a.lon + b.lon⟩

/-- Embedding of `Coord.__sub__`. -/
noncomputable def Coord.sub (a b : Coord) : Coord :=
  ⟨a.lat - b.lat, a.lon - b.lon⟩

/-- Embedding of `Coord.__eq__`: component-wise tolerance equality. -/
noncomputable def Coord.eq (a b : Coord) : Prop :=
  almost_eq a.lat b.lat ∧ almost_eq a.lon b.lon

/-- Embedding of `Coord.rot_around_zero` (wgs84.py lines 37-48). -/
noncomputable def Coord.rot_around_zero (c : Coord) (phi : ℝ) : Coord :=
  ⟨Real.cos phi * c.lat - Real.sin phi * c.lon,
   Real.sin phi * c.lat + Real.cos phi * c.lon⟩

/-- Embedding of `Coord.skew_lon` (wgs84.py lines 50-58). -/
noncomputable def Coord.skew_lon (c : Coord) (skew : ℝ) : Coord :=
  ⟨c.lat, c.lon + skew * c.lat⟩

/-- Real-valued counterpart of Python's `math.atan2 y x`: the angle of the
point `(x, y)` in `(-pi, pi]`, by the usual case split on the quadrant. -/
noncomputable def atan2 (y x : ℝ) : ℝ :=
  if 0 < x then Real.arctan (y / x)
  else if x < 0 then
    if 0 ≤ y then Real.arctan (y / x) + Real.pi
    else Real.arctan (y / x) - Real.pi
  else
    if 0 < y then Real.pi / 2
    else if y < 0 then -(Real.pi / 2)
    else 0

/-- The errors `World.__init__` can raise, one constructor per `raise` site
of wgs84.py (named after the spec's taxonomy), plus `divisionByZero` for
Python's `ZeroDivisionError` (float division by `0.0`), which has no
`raise` site of its own and is outside the spec's taxonomy. -/
inductive ConstructionError where
  | degenerateCorners
  | internalSolver
  | flippedAxis
  | excessiveSkew
  | skewTooLarge
  | divisionByZero
deriving DecidableEq

/-- Whether an error belongs to the five-kind taxonomy of spec §7. -/
def ConstructionError.inSpecTaxonomy : ConstructionError → Prop
  | .degenerateCorners => True
  | .internalSolver => True
  | .flippedAxis => True
  | .excessiveSkew => True
  | .skewTooLarge => True
  | .divisionByZero => False

/-- Embedding of class `World` (wgs84.py lines 61-167): the corner points,
the pixel dimensions, and the derived immutable transform fields. -/
structure World where
  wgs_bottom_left : Coord
  wgs_bottom_right : Coord
  wgs_top_left : Coord
  width : ℝ
  height : ℝ
  trans : Coord
  skew : ℝ
  phi : ℝ
  stretch_x : ℝ
  stretch_y : ℝ

/-- Stage value of `World.__init__`: `p2` after translating `p1` to the
origin (wgs84.py line 115). -/
noncomputable def q2 (p1 p2 : Coord) : Coord := p2.sub p1

/-- Stage value of `World.__init__`: `p3` after translation
(wgs84.py line 114). -/
noncomputable def q3 (p1 p3 : Coord) : Coord := p3.sub p1

/-- Stage value of `World.__init__`: `phi1 = atan2(p2.lat, p2.lon)` on the
translated `p2` (wgs84.py line 121). -/
noncomputable def phi1 (p1 p2 : Coord) : ℝ :=
  atan2 (q2 p1 p2).lat (q2 p1 p2).lon

/-- Stage value of `World.__init__`: the translated `p2` rotated by `phi1`
(wgs84.py line 122). -/
noncomputable def r2 (p1 p2 : Coord) : Coord :=
  (q2 p1 p2).rot_around_zero (phi1 p1 p2)

/-- Stage value of `World.__init__`: the translated `p3` rotated by `phi1`
(wgs84.py line 123). -/
noncomputable def r3 (p1 p2 p3 : Coord) : Coord :=
  (q3 p1 p3).rot_around_zero (phi1 p1 p2)

/-- Stage value of `World.__init__`: `phi2 = atan2(p3.lat, p3.lon)` on the
rotated `p3` (wgs84.py line 131). -/
noncomputable def phi2 (p1 p2 p3 : Coord) : ℝ :=
  atan2 (r3 p1 p2 p3).lat (r3 p1 p2 p3).lon

/-- Stage value of `World.__init__`: `skew = p3.lon / p3.lat` on the
rotated `p3` (wgs84.py line 135). -/
noncomputable def skewOf (p1 p2 p3 : Coord) : ℝ :=
  (r3 p1 p2 p3).lon / (r3 p1 p2 p3).lat

/-- Stage value of `World.__init__`: the rotated `p3` after
`skew_lon(-skew)` (wgs84.py line 141). -/
noncomputable def s3 (p1 p2 p3 : Coord) : Coord :=
  (r3 p1 p2 p3).skew_lon (-(skewOf p1 p2 p3))

/-- The condition of the post-rotation direction check of `World.__init__`
(wgs84.py line 127): `p2._lat < 0.0` on the rotated `p2`. -/
noncomputable def rotationDirectionFlipped (p : Coord) : Prop := p.lat < 0

/-- The condition the spec's §4.2 step 2 claims is checked after rotation:
`bottomRight.lon < 0` on the rotated point (stated from the spec's words,
for comparison with `rotationDirectionFlipped`). -/
noncomputable def specRotationDirectionFlipped (p : Coord) : Prop := p.lon < 0

open scoped Classical in
/-- Embedding of `World.__init__` (wgs84.py lines 88-152).  The guards
appear in the source's order; float division by `0.0` (the skew and
stretch divisions) is modelled by an explicit `divisionByZero` branch
immediately before each division the source performs. -/
noncomputable def construct (p1 p2 p3 : Coord) (width height : ℝ) :
    Except ConstructionError World :=
  if Coord.eq p1 p2 ∨ Coord.eq p1 p3 ∨ Coord.eq p2 p3 then
    .error .degenerateCorners
  else if ¬ (almost_eq (p1.sub p1).lat 0 ∧ almost_eq (p1.sub p1).lon 0) then
    .error .internalSolver
  else if ¬ almost_eq (r2 p1 p2).lat 0 then
    .error .internalSolver
  else if rotationDirectionFlipped (r2 p1 p2) then
    .error .flippedAxis
  else if |phi2 p1 p2 p3| > Real.pi * 0.9 then
    .error .excessiveSkew
  else if (r3 p1 p2 p3).lat = 0 then
    .error .divisionByZero
  else if |skewOf p1 p2 p3| > 1 then
    .error .skewTooLarge
  else if ¬ almost_eq (s3 p1 p2 p3).lon 0 then
    .error .internalSolver
  else if (s3 p1 p2 p3).lat < 0 then
    .error .flippedAxis
  else if width = 0 then
    .error .divisionByZero
  else if height = 0 then
    .error .divisionByZero
  else
    .ok ⟨p1, p2, p3, width, height, ⟨-p1.lat, -p1.lon⟩,
      skewOf p1 p2 p3, phi1 p1 p2,
      (r2 p1 p2).lon / width, (s3 p1 p2 p3).lat / height⟩

/-- Embedding of `World.to_wgs` (wgs84.py lines 154-167). -/
noncomputable def World.to_wgs (w : World) (x y : ℝ) : Coord :=
  (((Coord.mk (y * w.stretch_y) (x * w.stretch_x)).skew_lon
      w.skew).rot_around_zero (-w.phi)).sub w.trans

/-- The `toGeo` pipeline as worded by spec §4.3: un-stretch with the
deliberate axis pairing, un-skew with the stored `+skew`, un-rotate by the
negated rotation angle, un-translate by subtracting the stored
translation.  Stated from the spec's words, for comparison with
`World.to_wgs`. -/
noncomputable def toGeoSpec (w : World) (x y : ℝ) : Coord :=
  let c1 : Coord := ⟨y * w.stretch_y, x * w.stretch_x⟩
  let c2 : Coord := c1.skew_lon w.skew
  let c3 : Coord := c2.rot_around_zero (-w.phi)
  c3.sub w.trans

/-! ### Basic facts about the tolerance equality -/

lemma tol_pos : 0 < tol := by norm_num [tol]

lemma almost_eq_of_eq {a b : ℝ} (h : a = b) : almost_eq a b := by
  subst h
  unfold almost_eq
  simpa using lt_of_lt_of_le tol_pos (le_max_left _ _)

lemma almost_eq_refl (a : ℝ) : almost_eq a a := almost_eq_of_eq rfl

lemma Coord.eq_refl (c : Coord) : Coord.eq c c :=
  ⟨almost_eq_refl _, almost_eq_refl _⟩

lemma Coord.eq_of_eq {a b : Coord} (h : a = b) : Coord.eq a b := by
  subst h; exact Coord.eq_refl a

lemma not_almost_eq_iff (f1 f2 : ℝ) :
    ¬ almost_eq f1 f2 ↔ tol ≤ |f1 - f2| ∧ tol * max |f1| |f2| ≤ |f1 - f2| := by
  unfold almost_eq
  rw [not_lt, max_le_iff]

/-! ### Trigonometric facts about `atan2` and the rotation -/

lemma sq_add_sq_pos {x y : ℝ} (h : ¬ (x = 0 ∧ y = 0)) : 0 < x ^ 2 + y ^ 2 := by
  rcases not_and_or.mp h with hx | hy
  · have hx2 : 0 < x ^ 2 := lt_of_le_of_ne (sq_nonneg x) (Ne.symm (pow_ne_zero 2 hx))
    nlinarith [sq_nonneg y]
  · have hy2 : 0 < y ^ 2 := lt_of_le_of_ne (sq_nonneg y) (Ne.symm (pow_ne_zero 2 hy))
    nlinarith [sq_nonneg x]

lemma sqrt_one_add_div_sq {x y : ℝ} (hx : x ≠ 0) :
    Real.sqrt (1 + (y / x) ^ 2) = Real.sqrt (x ^ 2 + y ^ 2) / |x| := by
  have h1 : 1 + (y / x) ^ 2 = (x ^ 2 + y ^ 2) / x ^ 2 := by
    field_simp
  rw [h1, Real.sqrt_div (by positivity), Real.sqrt_sq_eq_abs]

lemma sqrt_mul_cos_atan2 (y x : ℝ) :
    Real.sqrt (x ^ 2 + y ^ 2) * Real.cos (atan2 y x) = x := by
  unfold atan2
  rcases lt_trichotomy 0 x with hx | hx | hx
  · rw [if_pos hx, Real.cos_arctan, sqrt_one_add_div_sq (ne_of_gt hx),
      abs_of_pos hx]
    have hs : (0:ℝ) < Real.sqrt (x ^ 2 + y ^ 2) := by
      rw [Real.sqrt_pos]; nlinarith [sq_nonneg y]
    field_simp
  · subst hx
    rw [if_neg (lt_irrefl 0), if_neg (lt_irrefl 0)]
    rcases lt_trichotomy 0 y with hy | hy | hy
    · rw [if_pos hy, Real.cos_pi_div_two, mul_zero]
    · subst hy
      rw [if_neg (lt_irrefl 0), if_neg (lt_irrefl 0)]
      simp
    · rw [if_neg (by linarith), if_pos hy, Real.cos_neg, Real.cos_pi_div_two,
        mul_zero]
  · rw [if_neg (by linarith), if_pos hx]
    have hs : (0:ℝ) < Real.sqrt (x ^ 2 + y ^ 2) := by
      rw [Real.sqrt_pos]; nlinarith [sq_nonneg y]
    have hcos : ∀ t : ℝ, Real.cos (t + Real.pi) = -Real.cos t := by
      intro t; rw [Real.cos_add, Real.cos_pi, Real.sin_pi]; ring
    have hcos' : ∀ t : ℝ, Real.cos (t - Real.pi) = -Real.cos t := by
      intro t; rw [Real.cos_sub, Real.cos_pi, Real.sin_pi]; ring
    have key : Real.sqrt (x ^ 2 + y ^ 2) * -Real.cos (Real.arctan (y / x)) = x := by
      rw [Real.cos_arctan, sqrt_one_add_div_sq (ne_of_lt hx), abs_of_neg hx]
      field_simp
    rcases le_or_lt 0 y with hy | hy
    · rw [if_pos hy, hcos]; exact key
    · rw [if_neg (not_le.mpr hy), hcos']; exact key

lemma sqrt_mul_sin_atan2 (y x : ℝ) :
    Real.sqrt (x ^ 2 + y ^ 2) * Real.sin (atan2 y x) = y := by
  unfold atan2
  rcases lt_trichotomy 0 x with hx | hx | hx
  · rw [if_pos hx, Real.sin_arctan, sqrt_one_add_div_sq (ne_of_gt hx),
      abs_of_pos hx]
    have hs : (0:ℝ) < Real.sqrt (x ^ 2 + y ^ 2) := by
      rw [Real.sqrt_pos]; nlinarith [sq_nonneg y]
    field_simp
  · subst hx
    rw [if_neg (lt_irrefl 0), if_neg (lt_irrefl 0)]
    rcases lt_trichotomy 0 y with hy | hy | hy
    · rw [if_pos hy, Real.sin_pi_div_two, mul_one]
      simpa using Real.sqrt_sq (le_of_lt hy)
    · subst hy
      rw [if_neg (lt_irrefl 0), if_neg (lt_irrefl 0)]
      simp
    · rw [if_neg (by linarith), if_pos hy, Real.sin_neg, Real.sin_pi_div_two]
      have : Real.sqrt (0 ^ 2 + y ^ 2) = -y := by
        rw [show (0:ℝ) ^ 2 + y ^ 2 = (-y) ^ 2 by ring,
          Real.sqrt_sq (by linarith)]
      rw [this]; ring
  · rw [if_neg (by linarith), if_pos hx]
    have hs : (0:ℝ) < Real.sqrt (x ^ 2 + y ^ 2) := by
      rw [Real.sqrt_pos]; nlinarith [sq_nonneg y]
    have hsin : ∀ t : ℝ, Real.sin (t + Real.pi) = -Real.sin t := by
      intro t; rw [Real.sin_add, Real.cos_pi, Real.sin_pi]; ring
    have hsin' : ∀ t : ℝ, Real.sin (t - Real.pi) = -Real.sin t := by
      intro t; rw [Real.sin_sub, Real.cos_pi, Real.sin_pi]; ring
    have key : Real.sqrt (x ^ 2 + y ^ 2) * -Real.sin (Real.arctan (y / x)) = y := by
      rw [Real.sin_arctan, sqrt_one_add_div_sq (ne_of_lt hx), abs_of_neg hx]
      field_simp [ne_of_lt hx, ne_of_gt hs]
      ring
    rcases le_or_lt 0 y with hy | hy
    · rw [if_pos hy, hsin]; exact key
    · rw [if_neg (not_le.mpr hy), hsin']; exact key

lemma cos_atan2 {y x : ℝ} (h : ¬ (x = 0 ∧ y = 0)) :
    Real.cos (atan2 y x) = x / Real.sqrt (x ^ 2 + y ^ 2) := by
  have hs : (0:ℝ) < Real.sqrt (x ^ 2 + y ^ 2) :=
    Real.sqrt_pos.mpr (sq_add_sq_pos h)
  rw [eq_div_iff (ne_of_gt hs), mul_comm]
  exact sqrt_mul_cos_atan2 y x

lemma sin_atan2 {y x : ℝ} (h : ¬ (x = 0 ∧ y = 0)) :
    Real.sin (atan2 y x) = y / Real.sqrt (x ^ 2 + y ^ 2) := by
  have hs : (0:ℝ) < Real.sqrt (x ^ 2 + y ^ 2) :=
    Real.sqrt_pos.mpr (sq_add_sq_pos h)
  rw [eq_div_iff (ne_of_gt hs), mul_comm]
  exact sqrt_mul_sin_atan2 y x

/-- Rotating a point by the `atan2` of its own components lands it on the
non-negative `lon` half-axis: the latitude becomes exactly `0` and the
longitude becomes the Euclidean norm. -/
lemma rot_atan2_self (q : Coord) :
    q.rot_around_zero (atan2 q.lat q.lon) =
      ⟨0, Real.sqrt (q.lon ^ 2 + q.lat ^ 2)⟩ := by
  by_cases h : q.lon = 0 ∧ q.lat = 0
  · obtain ⟨h1, h2⟩ := h
    unfold Coord.rot_around_zero
    rw [h1, h2]
    ext <;> simp
  · have hs : (0:ℝ) < Real.sqrt (q.lon ^ 2 + q.lat ^ 2) :=
      Real.sqrt_pos.mpr (sq_add_sq_pos h)
    have hc := cos_atan2 h
    have hn := sin_atan2 h
    have hsq : Real.sqrt (q.lon ^ 2 + q.lat ^ 2) ^ 2 = q.lon ^ 2 + q.lat ^ 2 :=
      Real.sq_sqrt (by positivity)
    unfold Coord.rot_around_zero
    rw [hc, hn]
    ext
    · show q.lon / Real.sqrt (q.lon ^ 2 + q.lat ^ 2) * q.lat -
        q.lat / Real.sqrt (q.lon ^ 2 + q.lat ^ 2) * q.lon = 0
      rw [div_mul_eq_mul_div, div_mul_eq_mul_div, div_sub_div_same,
        show q.lon * q.lat - q.lat * q.lon = (0:ℝ) by ring, zero_div]
    · show q.lat / Real.sqrt (q.lon ^ 2 + q.lat ^ 2) * q.lat +
        q.lon / Real.sqrt (q.lon ^ 2 + q.lat ^ 2) * q.lon =
        Real.sqrt (q.lon ^ 2 + q.lat ^ 2)
      rw [div_mul_eq_mul_div, div_mul_eq_mul_div, div_add_div_same,
        ← sq, ← sq, show q.lat ^ 2 + q.lon ^ 2 = q.lon ^ 2 + q.lat ^ 2 by ring,
        ← hsq]
      field_simp

/-- Rotating any point `p` by the `atan2` angle of a recounted point `q`,
written with the rotation's trigonometric factors eliminated in favour of
`q`'s components and norm. -/
lemma rot_atan2_other (q p : Coord) (h : ¬ (q.lon = 0 ∧ q.lat = 0)) :
    p.rot_around_zero (atan2 q.lat q.lon) =
      ⟨(q.lon * p.lat - q.lat * p.lon) / Real.sqrt (q.lon ^ 2 + q.lat ^ 2),
       (q.lat * p.lat + q.lon * p.lon) / Real.sqrt (q.lon ^ 2 + q.lat ^ 2)⟩ := by
  have hc := cos_atan2 h
  have hn := sin_atan2 h
  unfold Coord.rot_around_zero
  rw [hc, hn]
  ext
  · show q.lon / Real.sqrt (q.lon ^ 2 + q.lat ^ 2) * p.lat -
      q.lat / Real.sqrt (q.lon ^ 2 + q.lat ^ 2) * p.lon = _
    ring
  · show q.lat / Real.sqrt (q.lon ^ 2 + q.lat ^ 2) * p.lat +
      q.lon / Real.sqrt (q.lon ^ 2 + q.lat ^ 2) * p.lon = _
    ring

/-- Rotating by `phi` and then by `-phi` is the identity. -/
lemma rot_neg_rot (p : Coord) (phi : ℝ) :
    (p.rot_around_zero phi).rot_around_zero (-phi) = p := by
  ext
  · simp only [Coord.rot_around_zero, Real.cos_neg, Real.sin_neg]
    linear_combination p.lat * Real.sin_sq_add_cos_sq phi
  · simp only [Coord.rot_around_zero, Real.cos_neg, Real.sin_neg]
    linear_combination p.lon * Real.sin_sq_add_cos_sq phi

/-- With `0 < x` the `atan2` angle lies strictly inside `(-pi/2, pi/2)`. -/
lemma abs_atan2_lt_pi_div_two {y x : ℝ} (hx : 0 < x) :
    |atan2 y x| < Real.pi / 2 := by
  unfold atan2
  rw [if_pos hx, abs_lt]
  exact ⟨Real.neg_pi_div_two_lt_arctan _, Real.arctan_lt_pi_div_two _⟩

/-! ### Facts about the construction stages -/

lemma r2_eq (p1 p2 : Coord) :
    r2 p1 p2 = ⟨0, Real.sqrt ((q2 p1 p2).lon ^ 2 + (q2 p1 p2).lat ^ 2)⟩ := by
  unfold r2 phi1
  exact rot_atan2_self _

lemma r2_lat (p1 p2 : Coord) : (r2 p1 p2).lat = 0 := by rw [r2_eq]

lemma r2_lon_nonneg (p1 p2 : Coord) : 0 ≤ (r2 p1 p2).lon := by
  rw [r2_eq]
  exact Real.sqrt_nonneg _

lemma s3_lat (p1 p2 p3 : Coord) : (s3 p1 p2 p3).lat = (r3 p1 p2 p3).lat := rfl

lemma s3_lon_eq_zero {p1 p2 p3 : Coord} (hlat : (r3 p1 p2 p3).lat ≠ 0) :
    (s3 p1 p2 p3).lon = 0 := by
  unfold s3 Coord.skew_lon skewOf
  show (r3 p1 p2 p3).lon + -((r3 p1 p2 p3).lon / (r3 p1 p2 p3).lat) *
    (r3 p1 p2 p3).lat = 0
  field_simp

/-- If all the user-input guards pass, `construct` succeeds and its result
is the record of stage values written out. -/
lemma construct_ok_of {p1 p2 p3 : Coord} {w h : ℝ}
    (hdeg : ¬ (Coord.eq p1 p2 ∨ Coord.eq p1 p3 ∨ Coord.eq p2 p3))
    (hphi2 : ¬ (|phi2 p1 p2 p3| > Real.pi * 0.9))
    (hlat : (r3 p1 p2 p3).lat ≠ 0)
    (hskew : ¬ (|skewOf p1 p2 p3| > 1))
    (hflip : ¬ ((s3 p1 p2 p3).lat < 0))
    (hw : w ≠ 0) (hh : h ≠ 0) :
    construct p1 p2 p3 w h = .ok ⟨p1, p2, p3, w, h, ⟨-p1.lat, -p1.lon⟩,
      skewOf p1 p2 p3, phi1 p1 p2,
      (r2 p1 p2).lon / w, (s3 p1 p2 p3).lat / h⟩ := by
  unfold construct
  rw [if_neg hdeg,
    if_neg (not_not_intro ⟨almost_eq_of_eq (sub_self p1.lat),
      almost_eq_of_eq (sub_self p1.lon)⟩),
    if_neg (not_not_intro (almost_eq_of_eq (r2_lat p1 p2))),
    if_neg (show ¬ rotationDirectionFlipped (r2 p1 p2) by
      unfold rotationDirectionFlipped
      rw [r2_lat]
      exact lt_irrefl 0),
    if_neg hphi2, if_neg hlat, if_neg hskew,
    if_neg (not_not_intro (almost_eq_of_eq (s3_lon_eq_zero hlat))),
    if_neg hflip, if_neg hw, if_neg hh]

/-- Inversion: a successful `construct` implies every guard passed and
determines the returned record. -/
lemma construct_ok_inv {p1 p2 p3 : Coord} {w h : ℝ} {W : World}
    (hok : construct p1 p2 p3 w h = .ok W) :
    ¬ (Coord.eq p1 p2 ∨ Coord.eq p1 p3 ∨ Coord.eq p2 p3) ∧
    ¬ (|phi2 p1 p2 p3| > Real.pi * 0.9) ∧
    (r3 p1 p2 p3).lat ≠ 0 ∧
    ¬ (|skewOf p1 p2 p3| > 1) ∧
    ¬ ((s3 p1 p2 p3).lat < 0) ∧
    w ≠ 0 ∧ h ≠ 0 ∧
    W = ⟨p1, p2, p3, w, h, ⟨-p1.lat, -p1.lon⟩, skewOf p1 p2 p3, phi1 p1 p2,
      (r2 p1 p2).lon / w, (s3 p1 p2 p3).lat / h⟩ := by
  unfold construct at hok
  by_cases h1 : Coord.eq p1 p2 ∨ Coord.eq p1 p3 ∨ Coord.eq p2 p3
  · rw [if_pos h1] at hok; exact Except.noConfusion hok
  rw [if_neg h1,
    if_neg (not_not_intro ⟨almost_eq_of_eq (sub_self p1.lat),
      almost_eq_of_eq (sub_self p1.lon)⟩),
    if_neg (not_not_intro (almost_eq_of_eq (r2_lat p1 p2))),
    if_neg (show ¬ rotationDirectionFlipped (r2 p1 p2) by
      unfold rotationDirectionFlipped
      rw [r2_lat]
      exact lt_irrefl 0)] at hok
  by_cases h5 : |phi2 p1 p2 p3| > Real.pi * 0.9
  · rw [if_pos h5] at hok; exact Except.noConfusion hok
  rw [if_neg h5] at hok
  by_cases h6 : (r3 p1 p2 p3).lat = 0
  · rw [if_pos h6] at hok; exact Except.noConfusion hok
  rw [if_neg h6] at hok
  by_cases h7 : |skewOf p1 p2 p3| > 1
  · rw [if_pos h7] at hok; exact Except.noConfusion hok
  rw [if_neg h7,
    if_neg (not_not_intro (almost_eq_of_eq (s3_lon_eq_zero h6)))] at hok
  by_cases h9 : (s3 p1 p2 p3).lat < 0
  · rw [if_pos h9] at hok; exact Except.noConfusion hok
  rw [if_neg h9] at hok
  by_cases h10 : w = 0
  · rw [if_pos h10] at hok; exact Except.noConfusion hok
  rw [if_neg h10] at hok
  by_cases h11 : h = 0
  · rw [if_pos h11] at hok; exact Except.noConfusion hok
  rw [if_neg h11] at hok
  exact ⟨h1, h5, h6, h7, h9, h10, h11, (Except.ok.inj hok).symm⟩

lemma r2_unrot (p1 p2 : Coord) :
    (r2 p1 p2).rot_around_zero (-(phi1 p1 p2)) = q2 p1 p2 :=
  rot_neg_rot _ _

lemma r3_unrot (p1 p2 p3 : Coord) :
    (r3 p1 p2 p3).rot_around_zero (-(phi1 p1 p2)) = q3 p1 p3 :=
  rot_neg_rot _ _

/-- Exact round-trip over the reals: on a successfully constructed frame,
`to_wgs` maps the pixel corners back to the geographic corners with no
error at all. -/
lemma roundtrip_exact {p1 p2 p3 : Coord} {w h : ℝ} {W : World}
    (hok : construct p1 p2 p3 w h = .ok W) :
    W.to_wgs 0 0 = p1 ∧ W.to_wgs w 0 = p2 ∧ W.to_wgs 0 h = p3 := by
  obtain ⟨-, -, hlat, -, -, hw, hh, hW⟩ := construct_ok_inv hok
  subst hW
  refine ⟨?_, ?_, ?_⟩
  · show ((((Coord.mk (0 * ((s3 p1 p2 p3).lat / h))
        (0 * ((r2 p1 p2).lon / w))).skew_lon
        (skewOf p1 p2 p3)).rot_around_zero (-(phi1 p1 p2))).sub
        ⟨-p1.lat, -p1.lon⟩) = p1
    unfold Coord.skew_lon Coord.rot_around_zero Coord.sub
    ext <;> (show _ = _; ring_nf)
  · show ((((Coord.mk (0 * ((s3 p1 p2 p3).lat / h))
        (w * ((r2 p1 p2).lon / w))).skew_lon
        (skewOf p1 p2 p3)).rot_around_zero (-(phi1 p1 p2))).sub
        ⟨-p1.lat, -p1.lon⟩) = p2
    have stageA : (Coord.mk (0 * ((s3 p1 p2 p3).lat / h))
        (w * ((r2 p1 p2).lon / w))).skew_lon (skewOf p1 p2 p3) = r2 p1 p2 := by
      have hcancel : w * ((r2 p1 p2).lon / w) = (r2 p1 p2).lon := by
        field_simp
      ext
      · show 0 * ((s3 p1 p2 p3).lat / h) = (r2 p1 p2).lat
        rw [r2_lat, zero_mul]
      · show w * ((r2 p1 p2).lon / w) +
          skewOf p1 p2 p3 * (0 * ((s3 p1 p2 p3).lat / h)) = (r2 p1 p2).lon
        rw [hcancel]; ring
    rw [stageA, r2_unrot]
    show Coord.sub (q2 p1 p2) ⟨-p1.lat, -p1.lon⟩ = p2
    unfold q2 Coord.sub
    ext
    · show p2.lat - p1.lat - -p1.lat = p2.lat; ring
    · show p2.lon - p1.lon - -p1.lon = p2.lon; ring
  · show ((((Coord.mk (h * ((s3 p1 p2 p3).lat / h))
        (0 * ((r2 p1 p2).lon / w))).skew_lon
        (skewOf p1 p2 p3)).rot_around_zero (-(phi1 p1 p2))).sub
        ⟨-p1.lat, -p1.lon⟩) = p3
    have hcancel : h * ((s3 p1 p2 p3).lat / h) = (r3 p1 p2 p3).lat := by
      rw [s3_lat]; field_simp
    have stageA : (Coord.mk (h * ((s3 p1 p2 p3).lat / h))
        (0 * ((r2 p1 p2).lon / w))).skew_lon (skewOf p1 p2 p3) = r3 p1 p2 p3 := by
      ext
      · show h * ((s3 p1 p2 p3).lat / h) = (r3 p1 p2 p3).lat
        exact hcancel
      · show 0 * ((r2 p1 p2).lon / w) +
          skewOf p1 p2 p3 * (h * ((s3 p1 p2 p3).lat / h)) = (r3 p1 p2 p3).lon
        rw [hcancel, zero_mul, zero_add]
        unfold skewOf
        field_simp
    rw [stageA, r3_unrot]
    show Coord.sub (q3 p1 p3) ⟨-p1.lat, -p1.lon⟩ = p3
    unfold q3 Coord.sub
    ext
    · show p3.lat - p1.lat - -p1.lat = p3.lat; ring
    · show p3.lon - p1.lon - -p1.lon = p3.lon; ring

/-! ### Concrete fixtures

`F1`-`F3` are the corners of `sanity_check_impl` (wgs84.py lines 178-193).
`G1`-`G3` form a unit axis-aligned triangle used as a simple valid input;
further corner values exercise the error paths. -/

noncomputable def F1 : Coord := ⟨47.188770353504495, 8.679289310900968⟩

noncomputable def F2 : Coord := ⟨47.18841891486276, 8.680867011940794⟩

noncomputable def F3 : Coord := ⟨47.189467267318214, 8.679525966056941⟩

noncomputable def G1 : Coord := ⟨0, 0⟩

noncomputable def G2 : Coord := ⟨0, 1⟩

noncomputable def G3 : Coord := ⟨1, 0⟩

lemma not_ae_01 : ¬ almost_eq (0:ℝ) 1 := by
  unfold almost_eq tol; norm_num

lemma not_ae_0neg1 : ¬ almost_eq (0:ℝ) (-1) := by
  unfold almost_eq tol; norm_num

lemma not_ae_02 : ¬ almost_eq (0:ℝ) 2 := by
  unfold almost_eq tol; norm_num

lemma not_ae_12 : ¬ almost_eq (1:ℝ) 2 := by
  unfold almost_eq tol; norm_num

lemma not_deg_G : ¬ (Coord.eq G1 G2 ∨ Coord.eq G1 G3 ∨ Coord.eq G2 G3) := by
  push_neg
  exact ⟨fun hc => not_ae_01 hc.2, fun hc => not_ae_01 hc.1,
    fun hc => not_ae_01 hc.1⟩

lemma q2_G : q2 G1 G2 = ⟨0, 1⟩ := by
  unfold q2 Coord.sub G1 G2
  ext <;> norm_num

lemma phi1_G : phi1 G1 G2 = 0 := by
  unfold phi1
  rw [q2_G]
  show atan2 0 1 = 0
  unfold atan2
  rw [if_pos (by norm_num : (0:ℝ) < 1)]
  norm_num

lemma r2_G : r2 G1 G2 = ⟨0, 1⟩ := by
  rw [r2_eq, q2_G]
  ext <;> simp

lemma r3_G3 : r3 G1 G2 G3 = ⟨1, 0⟩ := by
  unfold r3
  rw [phi1_G]
  unfold q3 Coord.sub Coord.rot_around_zero G1 G3
  ext <;> simp

lemma phi2_G : phi2 G1 G2 G3 = Real.pi / 2 := by
  unfold phi2
  rw [r3_G3]
  show atan2 1 0 = Real.pi / 2
  unfold atan2
  rw [if_neg (lt_irrefl 0), if_neg (lt_irrefl 0),
    if_pos (by norm_num : (0:ℝ) < 1)]

lemma skew_G : skewOf G1 G2 G3 = 0 := by
  unfold skewOf
  rw [r3_G3]
  norm_num

lemma s3_G : s3 G1 G2 G3 = ⟨1, 0⟩ := by
  unfold s3 Coord.skew_lon
  rw [skew_G, r3_G3]
  ext <;> norm_num

lemma not_phi2_G_large : ¬ (|phi2 G1 G2 G3| > Real.pi * 0.9) := by
  rw [phi2_G, not_lt, abs_of_pos (by positivity)]
  nlinarith [Real.pi_pos]

/-- The `World` `construct` returns on the simple valid input. -/
noncomputable def goodW : World :=
  ⟨G1, G2, G3, 1, 1, ⟨-G1.lat, -G1.lon⟩, skewOf G1 G2 G3, phi1 G1 G2,
    (r2 G1 G2).lon / 1, (s3 G1 G2 G3).lat / 1⟩

lemma good_ok : construct G1 G2 G3 1 1 = .ok goodW :=
  construct_ok_of not_deg_G not_phi2_G_large
    (by rw [r3_G3]; norm_num)
    (by rw [skew_G]; norm_num)
    (by rw [s3_G]; norm_num)
    one_ne_zero one_ne_zero

lemma not_dirflip (p1 p2 : Coord) : ¬ rotationDirectionFlipped (r2 p1 p2) := by
  unfold rotationDirectionFlipped
  rw [r2_lat]
  exact lt_irrefl 0

lemma translate_check (p1 : Coord) :
    ¬ ¬ (almost_eq (p1.sub p1).lat 0 ∧ almost_eq (p1.sub p1).lon 0) :=
  not_not_intro ⟨almost_eq_of_eq (sub_self p1.lat),
    almost_eq_of_eq (sub_self p1.lon)⟩

/-- Top-left corner that mirrors the coordinate system: triggers the
`Coordinate system is flipped` error. -/
noncomputable def E3flip : Coord := ⟨-1, 0⟩

/-- Top-left corner with shear factor `2`: triggers the 45-degree skew
error. -/
noncomputable def E3skew : Coord := ⟨1, 2⟩

/-- Top-left corner collinear with the bottom edge: makes the skew
division `p3.lon / p3.lat` divide by zero. -/
noncomputable def E3col : Coord := ⟨0, 2⟩

lemma r3_E3flip : r3 G1 G2 E3flip = ⟨-1, 0⟩ := by
  unfold r3
  rw [phi1_G]
  unfold q3 Coord.sub Coord.rot_around_zero G1 E3flip
  ext <;> simp

lemma phi2_E3flip : phi2 G1 G2 E3flip = -(Real.pi / 2) := by
  unfold phi2
  rw [r3_E3flip]
  show atan2 (-1) 0 = -(Real.pi / 2)
  unfold atan2
  rw [if_neg (lt_irrefl 0), if_neg (lt_irrefl 0),
    if_neg (by norm_num : ¬ (0:ℝ) < -1), if_pos (by norm_num : (-1:ℝ) < 0)]

lemma skew_E3flip : skewOf G1 G2 E3flip = 0 := by
  unfold skewOf
  rw [r3_E3flip]
  norm_num

lemma s3_E3flip : s3 G1 G2 E3flip = ⟨-1, 0⟩ := by
  unfold s3 Coord.skew_lon
  rw [skew_E3flip, r3_E3flip]
  ext <;> norm_num

lemma flip_err : construct G1 G2 E3flip 1 1 = .error .flippedAxis := by
  unfold construct
  rw [if_neg (show ¬ (Coord.eq G1 G2 ∨ Coord.eq G1 E3flip ∨ Coord.eq G2 E3flip) by
      push_neg
      exact ⟨fun hc => not_ae_01 hc.2, fun hc => not_ae_0neg1 hc.1,
        fun hc => not_ae_0neg1 hc.1⟩),
    if_neg (translate_check G1),
    if_neg (not_not_intro (almost_eq_of_eq (r2_lat G1 G2))),
    if_neg (not_dirflip G1 G2),
    if_neg (show ¬ (|phi2 G1 G2 E3flip| > Real.pi * 0.9) by
      rw [phi2_E3flip, not_lt, abs_neg, abs_of_pos (by positivity)]
      nlinarith [Real.pi_pos]),
    if_neg (show ¬ ((r3 G1 G2 E3flip).lat = 0) by rw [r3_E3flip]; norm_num),
    if_neg (show ¬ (|skewOf G1 G2 E3flip| > 1) by rw [skew_E3flip]; norm_num),
    if_neg (not_not_intro (almost_eq_of_eq
      (s3_lon_eq_zero (by rw [r3_E3flip]; norm_num)))),
    if_pos (show (s3 G1 G2 E3flip).lat < 0 by rw [s3_E3flip]; norm_num)]

lemma r3_E3skew : r3 G1 G2 E3skew = ⟨1, 2⟩ := by
  unfold r3
  rw [phi1_G]
  unfold q3 Coord.sub Coord.rot_around_zero G1 E3skew
  ext <;> simp

lemma not_deg_E3skew : ¬ (Coord.eq G1 G2 ∨ Coord.eq G1 E3skew ∨ Coord.eq G2 E3skew) := by
  push_neg
  exact ⟨fun hc => not_ae_01 hc.2, fun hc => not_ae_01 hc.1,
    fun hc => not_ae_01 hc.1⟩

lemma not_phi2_E3skew : ¬ (|phi2 G1 G2 E3skew| > Real.pi * 0.9) := by
  unfold phi2
  rw [r3_E3skew, not_lt]
  refine le_trans (le_of_lt (abs_atan2_lt_pi_div_two (by norm_num))) ?_
  nlinarith [Real.pi_pos]

lemma r3lat_E3skew : (r3 G1 G2 E3skew).lat ≠ 0 := by
  rw [r3_E3skew]
  norm_num

lemma skew_gt_E3skew : |skewOf G1 G2 E3skew| > 1 := by
  unfold skewOf
  rw [r3_E3skew]
  norm_num

lemma r3_E3col : r3 G1 G2 E3col = ⟨0, 2⟩ := by
  unfold r3
  rw [phi1_G]
  unfold q3 Coord.sub Coord.rot_around_zero G1 E3col
  ext <;> simp

lemma phi2_E3col : phi2 G1 G2 E3col = 0 := by
  unfold phi2
  rw [r3_E3col]
  show atan2 0 2 = 0
  unfold atan2
  rw [if_pos (by norm_num : (0:ℝ) < 2)]
  norm_num

lemma divzero_err : construct G1 G2 E3col 1 1 = .error .divisionByZero := by
  unfold construct
  rw [if_neg (show ¬ (Coord.eq G1 G2 ∨ Coord.eq G1 E3col ∨ Coord.eq G2 E3col) by
      push_neg
      exact ⟨fun hc => not_ae_01 hc.2, fun hc => not_ae_02 hc.2,
        fun hc => not_ae_12 hc.2⟩),
    if_neg (translate_check G1),
    if_neg (not_not_intro (almost_eq_of_eq (r2_lat G1 G2))),
    if_neg (not_dirflip G1 G2),
    if_neg (show ¬ (|phi2 G1 G2 E3col| > Real.pi * 0.9) by
      rw [phi2_E3col, abs_zero, not_lt]
      nlinarith [Real.pi_pos]),
    if_pos (show (r3 G1 G2 E3col).lat = 0 by rw [r3_E3col])]

/-- Every error outcome of `construct` is one of the five reachable
failure sites, each tagged with the condition that fired it; the three
internal-solver checks and the bottomRight direction check never fire. -/
lemma construct_error_cases {p1 p2 p3 : Coord} {w h : ℝ} {e : ConstructionError}
    (herr : construct p1 p2 p3 w h = .error e) :
    (e = .degenerateCorners ∧ (Coord.eq p1 p2 ∨ Coord.eq p1 p3 ∨ Coord.eq p2 p3)) ∨
    (e = .excessiveSkew ∧ |phi2 p1 p2 p3| > Real.pi * 0.9) ∨
    (e = .divisionByZero ∧ ((r3 p1 p2 p3).lat = 0 ∨ w = 0 ∨ h = 0)) ∨
    (e = .skewTooLarge ∧ |skewOf p1 p2 p3| > 1) ∨
    (e = .flippedAxis ∧ (s3 p1 p2 p3).lat < 0) := by
  unfold construct at herr
  by_cases h1 : Coord.eq p1 p2 ∨ Coord.eq p1 p3 ∨ Coord.eq p2 p3
  · rw [if_pos h1] at herr
    exact Or.inl ⟨(Except.error.inj herr).symm, h1⟩
  rw [if_neg h1, if_neg (translate_check p1),
    if_neg (not_not_intro (almost_eq_of_eq (r2_lat p1 p2))),
    if_neg (not_dirflip p1 p2)] at herr
  by_cases h5 : |phi2 p1 p2 p3| > Real.pi * 0.9
  · rw [if_pos h5] at herr
    exact Or.inr (Or.inl ⟨(Except.error.inj herr).symm, h5⟩)
  rw [if_neg h5] at herr
  by_cases h6 : (r3 p1 p2 p3).lat = 0
  · rw [if_pos h6] at herr
    exact Or.inr (Or.inr (Or.inl ⟨(Except.error.inj herr).symm, Or.inl h6⟩))
  rw [if_neg h6] at herr
  by_cases h7 : |skewOf p1 p2 p3| > 1
  · rw [if_pos h7] at herr
    exact Or.inr (Or.inr (Or.inr (Or.inl ⟨(Except.error.inj herr).symm, h7⟩)))
  rw [if_neg h7,
    if_neg (not_not_intro (almost_eq_of_eq (s3_lon_eq_zero h6)))] at herr
  by_cases h9 : (s3 p1 p2 p3).lat < 0
  · rw [if_pos h9] at herr
    exact Or.inr (Or.inr (Or.inr (Or.inr ⟨(Except.error.inj herr).symm, h9⟩)))
  rw [if_neg h9] at herr
  by_cases h10 : w = 0
  · rw [if_pos h10] at herr
    exact Or.inr (Or.inr (Or.inl ⟨(Except.error.inj herr).symm,
      Or.inr (Or.inl h10)⟩))
  rw [if_neg h10] at herr
  by_cases h11 : h = 0
  · rw [if_pos h11] at herr
    exact Or.inr (Or.inr (Or.inl ⟨(Except.error.inj herr).symm,
      Or.inr (Or.inr h11)⟩))
  rw [if_neg h11] at herr
  exact Except.noConfusion herr

/-! ### The canonical regression fixture of `sanity_check_impl` -/

lemma not_almost_eq_of_bounds {f1 f2 : ℝ}
    (h1 : tol ≤ |f1 - f2|) (h2 : tol * |f1| ≤ |f1 - f2|)
    (h3 : tol * |f2| ≤ |f1 - f2|) : ¬ almost_eq f1 f2 := by
  rw [not_almost_eq_iff]
  refine ⟨h1, ?_⟩
  rcases le_total |f1| |f2| with hc | hc
  · rw [max_eq_right hc]; exact h3
  · rw [max_eq_left hc]; exact h2

lemma almost_eq_comm {f1 f2 : ℝ} : almost_eq f1 f2 ↔ almost_eq f2 f1 := by
  unfold almost_eq
  rw [abs_sub_comm, max_comm |f2| |f1|]

lemma not_almost_eq_of_lt {f1 f2 : ℝ} (h0 : 0 < f1) (hlt : f1 < f2)
    (ht : tol ≤ f2 - f1) (ht2 : tol * f2 ≤ f2 - f1) : ¬ almost_eq f1 f2 := by
  apply not_almost_eq_of_bounds
  · rw [abs_sub_comm, abs_of_pos (by linarith)]
    exact ht
  · rw [abs_sub_comm, abs_of_pos h0, abs_of_pos (by linarith)]
    have := tol_pos
    nlinarith
  · rw [abs_sub_comm, abs_of_pos (by linarith), abs_of_pos (by linarith)]
    exact ht2

lemma not_almost_eq_of_lt' {f1 f2 : ℝ} (h0 : 0 < f2) (hlt : f2 < f1)
    (ht : tol ≤ f1 - f2) (ht2 : tol * f1 ≤ f1 - f2) : ¬ almost_eq f1 f2 :=
  fun h => not_almost_eq_of_lt h0 hlt ht ht2 (almost_eq_comm.mp h)

lemma not_ae_a1a2 : ¬ almost_eq (47.188770353504495:ℝ) 47.18841891486276 := by
  apply not_almost_eq_of_lt' (by norm_num) (by norm_num) <;>
    (unfold tol; norm_num)

lemma not_ae_a1a3 : ¬ almost_eq (47.188770353504495:ℝ) 47.189467267318214 := by
  apply not_almost_eq_of_lt (by norm_num) (by norm_num) <;>
    (unfold tol; norm_num)

lemma not_ae_a2a3 : ¬ almost_eq (47.18841891486276:ℝ) 47.189467267318214 := by
  apply not_almost_eq_of_lt (by norm_num) (by norm_num) <;>
    (unfold tol; norm_num)

lemma not_deg_F : ¬ (Coord.eq F1 F2 ∨ Coord.eq F1 F3 ∨ Coord.eq F2 F3) := by
  push_neg
  exact ⟨fun hc => not_ae_a1a2 hc.1, fun hc => not_ae_a1a3 hc.1,
    fun hc => not_ae_a2a3 hc.1⟩

lemma q2_F : q2 F1 F2 = ⟨-0.000351438641735, 0.001577701039826⟩ := by
  unfold q2 Coord.sub F1 F2
  ext <;> norm_num

lemma q3_F : q3 F1 F3 = ⟨0.000696913813719, 0.000236655155973⟩ := by
  unfold q3 Coord.sub F1 F3
  ext <;> norm_num

lemma hq2F_ne : ¬ ((q2 F1 F2).lon = 0 ∧ (q2 F1 F2).lat = 0) := by
  rw [q2_F]
  rintro ⟨h1, -⟩
  norm_num at h1

lemma rF_pos : 0 < Real.sqrt ((q2 F1 F2).lon ^ 2 + (q2 F1 F2).lat ^ 2) := by
  rw [q2_F, Real.sqrt_pos]
  norm_num

lemma r3_F : r3 F1 F2 F3 =
    ⟨((q2 F1 F2).lon * (q3 F1 F3).lat - (q2 F1 F2).lat * (q3 F1 F3).lon) /
        Real.sqrt ((q2 F1 F2).lon ^ 2 + (q2 F1 F2).lat ^ 2),
      ((q2 F1 F2).lat * (q3 F1 F3).lat + (q2 F1 F2).lon * (q3 F1 F3).lon) /
        Real.sqrt ((q2 F1 F2).lon ^ 2 + (q2 F1 F2).lat ^ 2)⟩ := by
  unfold r3 phi1
  exact rot_atan2_other _ _ hq2F_ne

lemma D_F_pos :
    0 < (q2 F1 F2).lon * (q3 F1 F3).lat - (q2 F1 F2).lat * (q3 F1 F3).lon := by
  rw [q2_F, q3_F]
  norm_num

lemma N_F_pos :
    0 < (q2 F1 F2).lat * (q3 F1 F3).lat + (q2 F1 F2).lon * (q3 F1 F3).lon := by
  rw [q2_F, q3_F]
  norm_num

lemma ND_F_le :
    (q2 F1 F2).lat * (q3 F1 F3).lat + (q2 F1 F2).lon * (q3 F1 F3).lon ≤
    (q2 F1 F2).lon * (q3 F1 F3).lat - (q2 F1 F2).lat * (q3 F1 F3).lon := by
  rw [q2_F, q3_F]
  norm_num

lemma r3_F_lat_pos : 0 < (r3 F1 F2 F3).lat := by
  rw [r3_F]
  exact div_pos D_F_pos rF_pos

lemma r3_F_lon_pos : 0 < (r3 F1 F2 F3).lon := by
  rw [r3_F]
  exact div_pos N_F_pos rF_pos

lemma not_phi2_F_large : ¬ (|phi2 F1 F2 F3| > Real.pi * 0.9) := by
  unfold phi2
  rw [not_lt]
  refine le_trans (le_of_lt (abs_atan2_lt_pi_div_two r3_F_lon_pos)) ?_
  nlinarith [Real.pi_pos]

lemma not_skew_F_large : ¬ (|skewOf F1 F2 F3| > 1) := by
  unfold skewOf
  rw [not_lt, abs_div, abs_of_pos r3_F_lon_pos, abs_of_pos r3_F_lat_pos,
    div_le_one r3_F_lat_pos, r3_F]
  show _ / _ ≤ _ / _
  gcongr
  exact ND_F_le

/-- The canonical fixture constructs successfully. -/
lemma fixture_ok : ∃ W, construct F1 F2 F3 800 600 = .ok W :=
  ⟨_, construct_ok_of not_deg_F not_phi2_F_large
    (ne_of_gt r3_F_lat_pos) not_skew_F_large
    (not_lt.mpr (le_of_lt (by rw [s3_lat]; exact r3_F_lat_pos)))
    (by norm_num) (by norm_num)⟩

/-! ### The claims -/

/-- C1: for every successfully constructed frame with positive width and
height, `to_wgs` maps pixel `(0,0)` to `bottomLeft`, `(width,0)` to
`bottomRight` and `(0,height)` to `topLeft` under the tolerance equality;
and the canonical fixture of `sanity_check_impl` constructs successfully
and satisfies all three equalities. -/
theorem C1_roundtrip :
    (∀ (p1 p2 p3 : Coord) (w h : ℝ) (W : World), 0 < w → 0 < h →
      construct p1 p2 p3 w h = .ok W →
      Coord.eq (W.to_wgs 0 0) p1 ∧ Coord.eq (W.to_wgs w 0) p2 ∧
        Coord.eq (W.to_wgs 0 h) p3) ∧
    (∃ W : World, construct F1 F2 F3 800 600 = .ok W ∧
      Coord.eq (W.to_wgs 0 0) F1 ∧ Coord.eq (W.to_wgs 800 0) F2 ∧
        Coord.eq (W.to_wgs 0 600) F3) := by
  have huniv : ∀ (p1 p2 p3 : Coord) (w h : ℝ) (W : World),
      construct p1 p2 p3 w h = .ok W →
      Coord.eq (W.to_wgs 0 0) p1 ∧ Coord.eq (W.to_wgs w 0) p2 ∧
        Coord.eq (W.to_wgs 0 h) p3 := by
    intro p1 p2 p3 w h W hok
    obtain ⟨e1, e2, e3⟩ := roundtrip_exact hok
    exact ⟨Coord.eq_of_eq e1, Coord.eq_of_eq e2, Coord.eq_of_eq e3⟩
  refine ⟨fun p1 p2 p3 w h W _ _ hok => huniv _ _ _ _ _ _ hok, ?_⟩
  obtain ⟨W, hok⟩ := fixture_ok
  exact ⟨W, hok, huniv _ _ _ _ _ _ hok⟩

/-- Witness for C1 at the simple valid input. -/
theorem C1_roundtrip_witness :
    Coord.eq (goodW.to_wgs 0 0) G1 ∧ Coord.eq (goodW.to_wgs 1 0) G2 ∧
      Coord.eq (goodW.to_wgs 0 1) G3 :=
  C1_roundtrip.1 G1 G2 G3 1 1 goodW one_pos one_pos good_ok

/-- C2: `to_wgs` computes exactly the four-stage pipeline of spec §4.3
(un-stretch with the pixel-Y-to-latitude pairing, un-skew with the stored
`+skew`, un-rotate by the negated rotation angle, un-translate by
subtracting the stored translation); and for a constructed frame,
subtracting the stored translation is the same as adding back
`bottomLeft`. -/
theorem C2_pipeline :
    (∀ (W : World) (x y : ℝ), W.to_wgs x y = toGeoSpec W x y) ∧
    (∀ (p1 p2 p3 : Coord) (w h : ℝ) (W : World),
      construct p1 p2 p3 w h = .ok W →
      ∀ x y : ℝ, W.to_wgs x y =
        Coord.add (((Coord.mk (y * W.stretch_y) (x * W.stretch_x)).skew_lon
          W.skew).rot_around_zero (-W.phi)) p1) := by
  refine ⟨fun W x y => rfl, ?_⟩
  intro p1 p2 p3 w h W hok x y
  obtain ⟨-, -, -, -, -, -, -, hW⟩ := construct_ok_inv hok
  subst hW
  unfold World.to_wgs Coord.skew_lon Coord.rot_around_zero Coord.sub Coord.add
  ext <;> (show _ = _; ring)

/-- Witness for C2 at the simple valid input and pixel `(2,3)`. -/
theorem C2_pipeline_witness :
    goodW.to_wgs 2 3 = toGeoSpec goodW 2 3 ∧
    goodW.to_wgs 2 3 =
      Coord.add (((Coord.mk (3 * goodW.stretch_y)
        (2 * goodW.stretch_x)).skew_lon goodW.skew).rot_around_zero
        (-goodW.phi)) G1 :=
  ⟨C2_pipeline.1 goodW 2 3, C2_pipeline.2 G1 G2 G3 1 1 goodW good_ok 2 3⟩

/-- C3 counterexample: on a post-rotation state with negative longitude
(and zero latitude), the spec's claimed condition holds but the check the
code performs at wgs84.py line 127 does not fire, because that check
tests the latitude component, not the longitude. -/
theorem C3_check_cex :
    specRotationDirectionFlipped ⟨0, -1⟩ ∧
      ¬ rotationDirectionFlipped (⟨0, -1⟩ : Coord) := by
  constructor
  · show (-1:ℝ) < 0
    norm_num
  · show ¬ ((0:ℝ) < 0)
    exact lt_irrefl 0

/-- C3 (amended): the post-rotation direction check tests the latitude
component (`p2.lat < 0`), not the longitude; the rotated bottomRight
always has non-negative longitude and exactly zero latitude, so the check
never fires, and any `flippedAxis` failure of `construct` comes from the
later topLeft check (`p3.lat < 0` after the shear). -/
theorem C3_flip_check :
    (∀ p : Coord, rotationDirectionFlipped p ↔ p.lat < 0) ∧
    (∀ p1 p2 : Coord, 0 ≤ (r2 p1 p2).lon ∧
      ¬ rotationDirectionFlipped (r2 p1 p2)) ∧
    (∀ (p1 p2 p3 : Coord) (w h : ℝ),
      construct p1 p2 p3 w h = .error .flippedAxis →
      (s3 p1 p2 p3).lat < 0) := by
  refine ⟨fun p => Iff.rfl,
    fun p1 p2 => ⟨r2_lon_nonneg p1 p2, not_dirflip p1 p2⟩, ?_⟩
  intro p1 p2 p3 w h herr
  rcases construct_error_cases herr with
    ⟨he, -⟩ | ⟨he, -⟩ | ⟨he, -⟩ | ⟨he, -⟩ | ⟨-, hlt⟩
  · exact ConstructionError.noConfusion he
  · exact ConstructionError.noConfusion he
  · exact ConstructionError.noConfusion he
  · exact ConstructionError.noConfusion he
  · exact hlt

/-- Witness for C3's amended statement, with the mirrored-topLeft input
triggering the (later) `flippedAxis` failure. -/
theorem C3_flip_check_witness :
    (rotationDirectionFlipped (⟨-1, 0⟩ : Coord) ↔ (⟨-1, 0⟩ : Coord).lat < 0) ∧
    0 ≤ (r2 G1 G2).lon ∧ (s3 G1 G2 E3flip).lat < 0 :=
  ⟨C3_flip_check.1 ⟨-1, 0⟩, (C3_flip_check.2.1 G1 G2).1,
    C3_flip_check.2.2 G1 G2 E3flip 1 1 flip_err⟩

/-- C4 counterexample: applying `rot_around_zero(-phi1)` (as the claim
states) to the translated bottomRight `(1,1)` leaves latitude `sqrt 2`,
which fails the tolerance check against `0`; the code's actual call
`rot_around_zero(phi1)` zeroes the latitude exactly. -/
theorem C4_neg_angle_cex :
    ¬ almost_eq (((⟨1, 1⟩ : Coord).rot_around_zero (-(atan2 1 1))).lat) 0 ∧
    ((⟨1, 1⟩ : Coord).rot_around_zero (atan2 1 1)).lat = 0 := by
  have hatan : atan2 (1:ℝ) 1 = Real.pi / 4 := by
    unfold atan2
    rw [if_pos one_pos]
    norm_num [Real.arctan_one]
  constructor
  · have hrot : ((⟨1, 1⟩ : Coord).rot_around_zero (-(atan2 1 1))).lat =
        Real.sqrt 2 := by
      show Real.cos (-(atan2 1 1)) * 1 - Real.sin (-(atan2 1 1)) * 1 =
        Real.sqrt 2
      rw [hatan, Real.cos_neg, Real.sin_neg, Real.cos_pi_div_four,
        Real.sin_pi_div_four]
      ring
    rw [hrot]
    have hs2 : (1:ℝ) ≤ Real.sqrt 2 := by
      rw [show (1:ℝ) = Real.sqrt 1 from (Real.sqrt_one).symm]
      exact Real.sqrt_le_sqrt (by norm_num)
    have hs0 : (0:ℝ) ≤ Real.sqrt 2 := Real.sqrt_nonneg 2
    apply not_almost_eq_of_bounds
    · rw [sub_zero, abs_of_nonneg hs0]
      unfold tol
      linarith
    · rw [sub_zero, abs_of_nonneg hs0]
      unfold tol
      nlinarith
    · rw [sub_zero, abs_of_nonneg hs0, abs_zero, mul_zero]
      exact hs0
  · exact congrArg Coord.lat (rot_atan2_self ⟨1, 1⟩)

/-- C4 (amended): construction rotates by `+phi1 = atan2(lat, lon)`, and
that rotation zeroes the latitude of the rotated bottomRight exactly, so
the post-rotation tolerance check succeeds and `construct` never fails
with the internal-solver error on any input. -/
theorem C4_rotation :
    (∀ q : Coord, (q.rot_around_zero (atan2 q.lat q.lon)).lat = 0 ∧
      almost_eq ((q.rot_around_zero (atan2 q.lat q.lon)).lat) 0) ∧
    (∀ p1 p2 : Coord, (r2 p1 p2).lat = 0) ∧
    (∀ (p1 p2 p3 : Coord) (w h : ℝ),
      construct p1 p2 p3 w h ≠ .error .internalSolver) := by
  refine ⟨?_, r2_lat, ?_⟩
  · intro q
    have hz : (q.rot_around_zero (atan2 q.lat q.lon)).lat = 0 :=
      congrArg Coord.lat (rot_atan2_self q)
    exact ⟨hz, almost_eq_of_eq hz⟩
  · intro p1 p2 p3 w h herr
    rcases construct_error_cases herr with
      ⟨he, -⟩ | ⟨he, -⟩ | ⟨he, -⟩ | ⟨he, -⟩ | ⟨he, -⟩ <;>
      exact ConstructionError.noConfusion he

/-- Witness for C4's amended statement. -/
theorem C4_rotation_witness :
    ((⟨3, 4⟩ : Coord).rot_around_zero (atan2 3 4)).lat = 0 ∧
    construct G1 G2 G3 1 1 ≠ .error .internalSolver :=
  ⟨(C4_rotation.1 ⟨3, 4⟩).1, C4_rotation.2.2 G1 G2 G3 1 1⟩

/-- C5: if any two corners coincide under the tolerance equality,
`construct` fails with the degenerate-corners error; if the corners are
pairwise distinct under that equality, it never returns that error. -/
theorem C5_degenerate :
    ∀ (p1 p2 p3 : Coord) (w h : ℝ),
      ((Coord.eq p1 p2 ∨ Coord.eq p1 p3 ∨ Coord.eq p2 p3) →
        construct p1 p2 p3 w h = .error .degenerateCorners) ∧
      (¬ (Coord.eq p1 p2 ∨ Coord.eq p1 p3 ∨ Coord.eq p2 p3) →
        construct p1 p2 p3 w h ≠ .error .degenerateCorners) := by
  intro p1 p2 p3 w h
  constructor
  · intro hdeg
    unfold construct
    rw [if_pos hdeg]
  · intro hdeg herr
    rcases construct_error_cases herr with
      ⟨-, hc⟩ | ⟨he, -⟩ | ⟨he, -⟩ | ⟨he, -⟩ | ⟨he, -⟩
    · exact hdeg hc
    · exact ConstructionError.noConfusion he
    · exact ConstructionError.noConfusion he
    · exact ConstructionError.noConfusion he
    · exact ConstructionError.noConfusion he

/-- Witness for C5: coincident corners fail, distinct corners do not
produce the degenerate error. -/
theorem C5_degenerate_witness :
    construct G1 G1 G3 1 1 = .error .degenerateCorners ∧
    construct G1 G2 G3 1 1 ≠ .error .degenerateCorners :=
  ⟨(C5_degenerate G1 G1 G3 1 1).1 (Or.inl (Coord.eq_refl G1)),
    (C5_degenerate G1 G2 G3 1 1).2 not_deg_G⟩

/-- C6: when a construction run reaches the skew computation
`k = topLeft.lon / topLeft.lat` (post-rotation) and `|k| > 1`, it fails
with the skew-too-large error; whenever `|k| ≤ 1` that error is never
returned. -/
theorem C6_skew_bound :
    ∀ (p1 p2 p3 : Coord) (w h : ℝ),
      (¬ (Coord.eq p1 p2 ∨ Coord.eq p1 p3 ∨ Coord.eq p2 p3) →
        ¬ (|phi2 p1 p2 p3| > Real.pi * 0.9) →
        (r3 p1 p2 p3).lat ≠ 0 →
        |skewOf p1 p2 p3| > 1 →
        construct p1 p2 p3 w h = .error .skewTooLarge) ∧
      (¬ (|skewOf p1 p2 p3| > 1) →
        construct p1 p2 p3 w h ≠ .error .skewTooLarge) := by
  intro p1 p2 p3 w h
  constructor
  · intro hdeg hphi2 hlat hk
    unfold construct
    rw [if_neg hdeg, if_neg (translate_check p1),
      if_neg (not_not_intro (almost_eq_of_eq (r2_lat p1 p2))),
      if_neg (not_dirflip p1 p2), if_neg hphi2, if_neg hlat, if_pos hk]
  · intro hk herr
    rcases construct_error_cases herr with
      ⟨he, -⟩ | ⟨he, -⟩ | ⟨he, -⟩ | ⟨-, hc⟩ | ⟨he, -⟩
    · exact ConstructionError.noConfusion he
    · exact ConstructionError.noConfusion he
    · exact ConstructionError.noConfusion he
    · exact hk hc
    · exact ConstructionError.noConfusion he

/-- Witness for C6: a shear factor of `2` fails with the skew error, and
the simple valid input (shear factor `0`) never returns it. -/
theorem C6_skew_bound_witness :
    construct G1 G2 E3skew 1 1 = .error .skewTooLarge ∧
    construct G1 G2 G3 1 1 ≠ .error .skewTooLarge :=
  ⟨(C6_skew_bound G1 G2 E3skew 1 1).1 not_deg_E3skew not_phi2_E3skew
      r3lat_E3skew skew_gt_E3skew,
    (C6_skew_bound G1 G2 G3 1 1).2 (by rw [skew_G]; norm_num)⟩

/-- C7: for a fixed successfully constructed frame, `to_wgs` is affine in
`(x, y)`: the difference quotient identity holds exactly over the reals,
hence also under the tolerance equality. -/
theorem C7_affine :
    ∀ (p1 p2 p3 : Coord) (w h : ℝ) (W : World),
      construct p1 p2 p3 w h = .ok W →
      ∀ x1 x2 y : ℝ,
        (W.to_wgs (x1 + x2) y).sub (W.to_wgs x1 y) =
          (W.to_wgs x2 0).sub (W.to_wgs 0 0) ∧
        Coord.eq ((W.to_wgs (x1 + x2) y).sub (W.to_wgs x1 y))
          ((W.to_wgs x2 0).sub (W.to_wgs 0 0)) := by
  intro p1 p2 p3 w h W _ x1 x2 y
  have hexact : (W.to_wgs (x1 + x2) y).sub (W.to_wgs x1 y) =
      (W.to_wgs x2 0).sub (W.to_wgs 0 0) := by
    unfold World.to_wgs Coord.skew_lon Coord.rot_around_zero Coord.sub
    ext <;> (show _ = _; ring)
  exact ⟨hexact, Coord.eq_of_eq hexact⟩

/-- Witness for C7 at the simple valid frame and `x1 = 1, x2 = 2, y = 3`. -/
theorem C7_affine_witness :
    (goodW.to_wgs (1 + 2) 3).sub (goodW.to_wgs 1 3) =
      (goodW.to_wgs 2 0).sub (goodW.to_wgs 0 0) :=
  (C7_affine G1 G2 G3 1 1 goodW good_ok 1 2 3).1

/-- C8: `to_wgs` is a pure total function of the frame's five stored
transform fields alone — two frames agreeing on translation, skew,
rotation angle and the stretch factors produce identical outputs on every
input — and it returns a coordinate on every input, with no failure
path. -/
theorem C8_pure_total :
    (∀ W W' : World, W.trans = W'.trans → W.skew = W'.skew →
      W.phi = W'.phi → W.stretch_x = W'.stretch_x →
      W.stretch_y = W'.stretch_y →
      ∀ x y : ℝ, W.to_wgs x y = W'.to_wgs x y) ∧
    (∀ (W : World) (x y : ℝ), ∃ c : Coord, W.to_wgs x y = c) := by
  refine ⟨?_, fun W x y => ⟨_, rfl⟩⟩
  intro W W' h1 h2 h3 h4 h5 x y
  unfold World.to_wgs
  rw [h1, h2, h3, h4, h5]

/-- A frame with the same derived transform fields as `goodW` but
different recorded corners and dimensions. -/
noncomputable def goodW' : World :=
  ⟨F1, F2, F3, 5, 7, goodW.trans, goodW.skew, goodW.phi,
    goodW.stretch_x, goodW.stretch_y⟩

/-- Witness for C8: the differing recorded corners and dimensions of
`goodW'` do not affect `to_wgs`. -/
theorem C8_pure_total_witness : goodW.to_wgs 2 3 = goodW'.to_wgs 2 3 :=
  C8_pure_total.1 goodW goodW' rfl rfl rfl rfl rfl 2 3

/-- C9: with the collinear corners `(0,0)`, `(0,1)`, `(0,2)` the corners
are pairwise distinct, the rotated topLeft has latitude exactly `0`, the
skew-angle guard does not trigger (`phi2 = 0`), and construction dies in
the division `p3.lon / p3.lat` with a division-by-zero error — an error
outside the spec's construction-error taxonomy. -/
theorem C9_collinear_divzero :
    construct G1 G2 E3col 1 1 = .error .divisionByZero ∧
    ¬ ConstructionError.inSpecTaxonomy .divisionByZero ∧
    (r3 G1 G2 E3col).lat = 0 ∧
    phi2 G1 G2 E3col = 0 ∧
    ¬ (|phi2 G1 G2 E3col| > Real.pi * 0.9) := by
  refine ⟨divzero_err, fun hc => hc, by rw [r3_E3col], phi2_E3col, ?_⟩
  rw [phi2_E3col, abs_zero, not_lt]
  nlinarith [Real.pi_pos]

/-- C10: construction never validates `width > 0` / `height > 0`: on an
otherwise-valid input, a zero width or height produces a division-by-zero
error at the stretch computation, while a negated width or height
succeeds silently with the corresponding stretch factor sign-flipped. -/
theorem C10_no_dim_validation :
    ∀ (p1 p2 p3 : Coord) (w h : ℝ) (W : World),
      construct p1 p2 p3 w h = .ok W →
      construct p1 p2 p3 0 h = .error .divisionByZero ∧
      construct p1 p2 p3 w 0 = .error .divisionByZero ∧
      (∃ W', construct p1 p2 p3 (-w) h = .ok W' ∧
        W'.stretch_x = -W.stretch_x ∧ W'.stretch_y = W.stretch_y) ∧
      (∃ W', construct p1 p2 p3 w (-h) = .ok W' ∧
        W'.stretch_x = W.stretch_x ∧ W'.stretch_y = -W.stretch_y) := by
  intro p1 p2 p3 w h W hok
  obtain ⟨hdeg, hphi2, hlat, hskew, hflip, hw, hh, hW⟩ := construct_ok_inv hok
  subst hW
  refine ⟨?_, ?_, ?_, ?_⟩
  · unfold construct
    rw [if_neg hdeg, if_neg (translate_check p1),
      if_neg (not_not_intro (almost_eq_of_eq (r2_lat p1 p2))),
      if_neg (not_dirflip p1 p2), if_neg hphi2, if_neg hlat, if_neg hskew,
      if_neg (not_not_intro (almost_eq_of_eq (s3_lon_eq_zero hlat))),
      if_neg hflip, if_pos rfl]
  · unfold construct
    rw [if_neg hdeg, if_neg (translate_check p1),
      if_neg (not_not_intro (almost_eq_of_eq (r2_lat p1 p2))),
      if_neg (not_dirflip p1 p2), if_neg hphi2, if_neg hlat, if_neg hskew,
      if_neg (not_not_intro (almost_eq_of_eq (s3_lon_eq_zero hlat))),
      if_neg hflip, if_neg hw, if_pos rfl]
  · refine ⟨_, construct_ok_of hdeg hphi2 hlat hskew hflip
      (neg_ne_zero.mpr hw) hh, ?_, rfl⟩
    show (r2 p1 p2).lon / -w = -((r2 p1 p2).lon / w)
    rw [div_neg]
  · refine ⟨_, construct_ok_of hdeg hphi2 hlat hskew hflip hw
      (neg_ne_zero.mpr hh), rfl, ?_⟩
    show (s3 p1 p2 p3).lat / -h = -((s3 p1 p2 p3).lat / h)
    rw [div_neg]

/-- Witness for C10 at the simple valid input. -/
theorem C10_no_dim_validation_witness :
    construct G1 G2 G3 0 1 = .error .divisionByZero ∧
    (∃ W', construct G1 G2 G3 (-1) 1 = .ok W' ∧
      W'.stretch_x = -goodW.stretch_x ∧ W'.stretch_y = goodW.stretch_y) := by
  obtain ⟨h1, h2, h3, h4⟩ := C10_no_dim_validation G1 G2 G3 1 1 goodW good_ok
  exact ⟨h1, h3⟩

end Wgs84
